import Mathlib

set_option maxRecDepth 4000

/-!
Verification of `create_issues.py`, a script that creates GitHub labels and
issues by shelling out to the `gh` CLI.  The script is embedded shallowly:
every `subprocess.run` call is resolved by an *oracle* (a function from the
index of the call, in program order, to the outcome of that call), and the
whole program is a pure function from the oracle and the interactive stdin
response to an event trace (console prints, subprocess invocations with
their argument vectors and timeouts, and the stdin read) plus an exit code.
-/

namespace CreateIssues

/-- Outcome of one `subprocess.run` invocation: a completed process with a
return code, stdout and stderr; a raised `TimeoutExpired`; or any other
raised exception carrying its rendered message. -/
inductive ExecResult where
  | completed (returncode : Int) (stdout : String) (stderr : String)
  | timedOut
  | raised (msg : String)
deriving DecidableEq

/-- Observable event of a run: a `print(...)` (argument string, without the
trailing newline `print` adds), a subprocess invocation (argument vector,
timeout in seconds, outcome), or the `input(...)` read of the confirmation
response. -/
inductive Event where
  | print (s : String)
  | run (argv : List String) (timeoutSec : Nat) (res : ExecResult)
  | read (prompt : String) (response : String)
deriving DecidableEq

/-- Environment model: outcome of the n-th subprocess call of the run. -/
abbrev Oracle := Nat → ExecResult

abbrev Out := List Event

/-- Whether the first character list is a prefix of the second. -/
def listPrefixOf : List Char → List Char → Bool
  | [], _ => true
  | _ :: _, [] => false
  | a :: as, b :: bs => a == b && listPrefixOf as bs

/-- Whether the first character list occurs contiguously in the second. -/
def listInfixOf (pat : List Char) : List Char → Bool
  | [] => pat.isEmpty
  | c :: t => listPrefixOf pat (c :: t) || listInfixOf pat t

/-- Python `pat in s` on strings: substring containment. -/
def pyIn (pat s : String) : Bool :=
  listInfixOf pat.data s.data

/-- Python `s.lower()`, modelled characterwise (ASCII-faithful). -/
def pyLower (s : String) : String :=
  String.mk (s.data.map Char.toLower)

/-- One `subprocess.run(argv, timeout=t)`: consumes the next oracle outcome
and records the invocation. -/
def runCmd (o : Oracle) (c : Nat) (argv : List String) (t : Nat) :
    ExecResult × Nat × Out :=
  (o c, c + 1, [Event.run argv t (o c)])

/-- A completed process with return code 0, the only probe outcome that
makes `find_gh_executable` accept a candidate. -/
def isSuccess0 : ExecResult → Bool
  | ExecResult.completed rc _ _ => rc == 0
  | _ => false

/-- Label record of the static `REQUIRED_LABELS` table. -/
structure LabelRec where
  name : String
  description : String
  color : String
deriving DecidableEq

/-- Issue record of the static `TASK_GROUPS` table. -/
structure TaskGroup where
  title : String
  body : String
  labels : List String
deriving DecidableEq

def REQUIRED_LABELS : List LabelRec := [
  ⟨"backend", "Backend development tasks", "0052cc"⟩,
  ⟨"frontend", "Frontend development tasks", "5319e7"⟩,
  ⟨"foundation", "Core foundation tasks", "d93f0b"⟩,
  ⟨"authentication", "Authentication and authorization", "fbca04"⟩,
  ⟨"articles", "Article management features", "0e8a16"⟩,
  ⟨"comments", "Comments system", "006b75"⟩,
  ⟨"tags", "Tags and tagging system", "7057ff"⟩,
  ⟨"setup", "Project setup and configuration", "e99695"⟩,
  ⟨"navigation", "Navigation and routing", "bfd4f2"⟩,
  ⟨"feeds", "Article feeds and listing", "c2e0c6"⟩,
  ⟨"editor", "Article editor functionality", "f9d0c4"⟩,
  ⟨"profiles", "User profiles and settings", "fef2c0"⟩,
  ⟨"ui", "User interface and design", "d4c5f9"⟩,
  ⟨"responsive", "Responsive design and mobile", "c5def5"⟩,
  ⟨"devops", "DevOps and deployment", "0052cc"⟩,
  ⟨"docker", "Docker containerization", "006b75"⟩,
  ⟨"testing", "Testing and quality assurance", "d93f0b"⟩,
  ⟨"quality", "Code quality and standards", "fbca04"⟩,
  ⟨"security", "Security and validation", "b60205"⟩,
  ⟨"error-handling", "Error handling and user feedback", "d93f0b"⟩,
  ⟨"performance", "Performance optimization", "0e8a16"⟩,
  ⟨"documentation", "Documentation and guides", "5319e7"⟩,
  ⟨"deployment", "Production deployment", "0052cc"⟩,
  ⟨"high-priority", "High priority tasks", "b60205"⟩,
  ⟨"medium-priority", "Medium priority tasks", "fbca04"⟩
]

def TASK_GROUPS : List TaskGroup := [
  ⟨"Phase 1.1: Project Setup & Go Backend Foundation",
    "## Tasks:\n1. Set up project structure and development environment\n2. Initialize Go backend with basic server and SQLite database  \n3. Create database schema and migrations for all tables\n4. Implement JWT authentication middleware and user models\n\n## Acceptance Criteria:\n- [x] Root project structure created as per PRD section 13.1\n- [x] Git repository initialized with proper .gitignore\n- [x] Go module set up with HTTP server and SQLite connection\n- [x] Database schema implemented with all required tables\n- [x] JWT authentication middleware working\n- [x] User models with validation created\n\n## Priority: High\n## Phase: Backend Foundation",
    ["backend", "foundation", "high-priority"]⟩,
  ⟨"Phase 1.2: User Authentication & Profile System",
    "## Tasks:\n5. Build user authentication endpoints (register, login, get/update user)\n6. Implement user profile endpoints (get profile, follow/unfollow)\n\n## Endpoints to implement:\n- `POST /api/users/login` - User login\n- `POST /api/users` - User registration\n- `GET /api/user` - Get current user (auth required)\n- `PUT /api/user` - Update user (auth required)\n- `GET /api/profiles/:username` - Get user profile\n- `POST /api/profiles/:username/follow` - Follow user (auth required)\n- `DELETE /api/profiles/:username/follow` - Unfollow user (auth required)\n\n## Acceptance Criteria:\n- [x] All authentication endpoints working with proper validation\n- [x] Password hashing with bcrypt implemented\n- [x] JWT token handling in responses\n- [x] Follow/unfollow functionality working\n- [x] Proper error handling and validation\n\n## Priority: High\n## Phase: Backend Foundation",
    ["backend", "authentication", "high-priority"]⟩,
  ⟨"Phase 1.3: Articles System - CRUD & Feed",
    "## Tasks:\n7. Create article CRUD endpoints with slug generation\n8. Build article feed endpoints (global feed, personal feed)\n9. Implement article favoriting system\n\n## Endpoints to implement:\n- `GET /api/articles/:slug` - Get single article\n- `POST /api/articles` - Create article (auth required)\n- `PUT /api/articles/:slug` - Update article (auth required)  \n- `DELETE /api/articles/:slug` - Delete article (auth required)\n- `GET /api/articles` - List articles (with filtering & pagination)\n- `GET /api/articles/feed` - Get user feed (auth required)\n- `POST /api/articles/:slug/favorite` - Favorite article (auth required)\n- `DELETE /api/articles/:slug/favorite` - Unfavorite article (auth required)\n\n## Acceptance Criteria:\n- [x] Article CRUD operations working\n- [x] Slug generation utility implemented\n- [x] Article feeds with filtering by tag, author, favorited status\n- [x] Pagination support\n- [x] Favoriting system with accurate counts\n\n## Priority: High  \n## Phase: Backend Foundation",
    ["backend", "articles", "high-priority"]⟩,
  ⟨"Phase 1.4: Comments & Tags System",
    "## Tasks:\n10. Create comments system for articles\n11. Build tags system and popular tags endpoint\n12. Add CORS middleware and API error handling\n\n## Endpoints to implement:\n- `GET /api/articles/:slug/comments` - Get article comments\n- `POST /api/articles/:slug/comments` - Add comment (auth required)\n- `DELETE /api/articles/:slug/comments/:id` - Delete comment (auth required)\n- `GET /api/tags` - Get all tags\n\n## Acceptance Criteria:\n- [x] Comments CRUD functionality working\n- [x] Tag creation during article creation\n- [x] Popular tags functionality\n- [x] CORS middleware configured for frontend\n- [x] Consistent error response format\n- [x] Request logging middleware\n- [x] Input validation and sanitization\n\n## Priority: High\n## Phase: Backend Foundation",
    ["backend", "comments", "tags", "high-priority"]⟩,
  ⟨"Phase 2.1: Frontend Setup & Architecture",
    "## Tasks:\n13. Initialize React frontend with Vite, TypeScript, and Tailwind CSS\n14. Set up Shadcn/UI components and design system\n15. Configure TanStack Router for hash-based routing\n16. Set up TanStack Query for API state management  \n17. Create API client with authentication handling\n\n## Acceptance Criteria:\n- [x] Vite + React + TypeScript project created\n- [x] Tailwind CSS configured with custom settings\n- [x] Shadcn/UI initialized with base components\n- [x] TanStack Router with hash-based routing configured\n- [x] All route definitions created (#/, #/login, #/register, etc.)\n- [x] TanStack Query set up with error handling\n- [x] API client with JWT token management\n- [x] Request/response interceptors working\n\n## Priority: High\n## Phase: Frontend Foundation",
    ["frontend", "setup", "high-priority"]⟩,
  ⟨"Phase 2.2: Authentication Pages & Navigation",
    "## Tasks:\n18. Build authentication pages (login, register)\n19. Implement header navigation with conditional rendering\n\n## Pages to create:\n- Login page with email/password validation\n- Registration page with username/email/password  \n- Header component with logo and navigation\n- User dropdown menu for authenticated users\n\n## Acceptance Criteria:\n- [x] Login and registration forms with validation\n- [x] Form error handling and display\n- [x] Navigation between login/register pages\n- [x] Header with conditional rendering based on auth status\n- [x] User dropdown with logout functionality\n- [x] Proper form validation and user feedback\n\n## Priority: High\n## Phase: Frontend Foundation",
    ["frontend", "authentication", "navigation", "high-priority"]⟩,
  ⟨"Phase 2.3: Home Page & Article Feeds",
    "## Tasks:\n20. Create home page with article feeds and popular tags\n21. Build article detail page with comments\n\n## Features to implement:\n- Article feed tabs (Your Feed, Global Feed, Tag Feed)\n- Article preview cards with metadata\n- Popular tags sidebar\n- Article detail view with markdown rendering\n- Comments section with add/delete functionality\n- Follow/favorite buttons\n- Author-only edit/delete controls\n\n## Acceptance Criteria:\n- [x] Home page with working feed tabs\n- [x] Article preview cards showing metadata\n- [x] Popular tags sidebar with filtering\n- [x] Article detail page with markdown rendering\n- [x] Comments system working\n- [x] Follow and favorite buttons functional\n- [x] Proper author permissions for edit/delete\n\n## Priority: High\n## Phase: Frontend Features",
    ["frontend", "articles", "feeds", "high-priority"]⟩,
  ⟨"Phase 2.4: Article Editor & User Profiles",
    "## Tasks:\n22. Implement article editor with markdown support\n23. Create user profile pages with article tabs\n24. Build user settings page for profile updates\n\n## Features to implement:\n- Article creation form (title, description, body, tags)\n- Markdown editor or textarea\n- Tag input with autocomplete\n- User profile display with bio and image\n- Article tabs: \"My Articles\" and \"Favorited Articles\"\n- Settings form for profile updates\n- Follow button for other users\n\n## Acceptance Criteria:\n- [x] Article editor with all required fields\n- [x] Tag input with autocomplete functionality\n- [x] Publish/update article functionality\n- [x] Edit mode for existing articles\n- [x] User profile pages with bio and image\n- [x] Article tabs working correctly\n- [x] Settings page with form validation\n- [x] Follow functionality on profiles\n\n## Priority: Medium\n## Phase: Frontend Features",
    ["frontend", "editor", "profiles", "medium-priority"]⟩,
  ⟨"Phase 2.5: Pagination & UI Polish",
    "## Tasks:\n25. Add pagination components and logic\n26. Implement responsive design and mobile optimization\n\n## Features to implement:\n- Reusable pagination component\n- Page navigation for article feeds\n- Loading states for page transitions\n- Mobile-first responsive design\n- Tablet and desktop breakpoints\n- Touch-friendly interface elements\n\n## Acceptance Criteria:\n- [x] Pagination working on all feed pages\n- [x] Loading states during pagination\n- [x] Responsive design across all breakpoints\n- [x] Mobile-optimized touch interfaces\n- [x] Proper loading states and transitions\n- [x] UI polish and smooth interactions\n\n## Priority: Medium\n## Phase: Frontend Features",
    ["frontend", "ui", "responsive", "medium-priority"]⟩,
  ⟨"Phase 3.1: Development Environment & Docker",
    "## Tasks:\n27. Create Docker configuration for development and production\n28. Set up testing infrastructure (backend and frontend)\n\n## Deliverables:\n- Dockerfile.dev for backend development\n- Dockerfile.dev for frontend development\n- docker-compose.yml for full environment\n- Production Docker configurations\n- Go testing framework setup\n- Vitest for frontend unit tests\n- React Testing Library for component tests\n- Test databases and fixtures\n\n## Acceptance Criteria:\n- [x] Docker development environment working\n- [x] Docker production builds optimized\n- [x] Testing frameworks configured\n- [x] Test databases and fixtures set up\n- [x] All containers working together\n- [x] Easy development workflow\n\n## Priority: Medium\n## Phase: Polish & Production",
    ["devops", "docker", "testing", "medium-priority"]⟩,
  ⟨"Phase 3.2: Comprehensive Testing",
    "## Tasks:\n29. Write comprehensive tests for API endpoints\n30. Add frontend component and integration tests\n\n## Testing scope:\n- Unit tests for all handler functions\n- Integration tests for database operations  \n- API endpoint tests with httptest\n- Authentication and authorization tests\n- Component tests for all major components\n- Integration tests for user flows\n- API integration tests with MSW\n- E2E tests with Playwright for critical paths\n\n## Acceptance Criteria:\n- [x] >80% code coverage for backend\n- [x] All API endpoints tested\n- [x] Database operations tested\n- [x] Frontend components tested\n- [x] User flows tested end-to-end\n- [x] CI/CD pipeline passing all tests\n\n## Priority: Medium\n## Phase: Polish & Production",
    ["testing", "quality", "medium-priority"]⟩,
  ⟨"Phase 3.3: Error Handling & Security",
    "## Tasks:\n31. Implement error handling and user feedback\n32. Add input validation and security measures\n\n## Features:\n- Toast notifications for user actions\n- Error boundaries for React\n- Network error handling\n- Loading states and skeleton screens\n- Comprehensive input validation\n- XSS protection for user content\n- CSRF protection\n- Rate limiting for API endpoints\n\n## Acceptance Criteria:\n- [x] User-friendly error messages\n- [x] Proper error boundaries\n- [x] Graceful network error handling\n- [x] Security measures implemented\n- [x] Input validation on all forms\n- [x] Rate limiting configured\n- [x] XSS and CSRF protection active\n\n## Priority: High\n## Phase: Polish & Production",
    ["security", "error-handling", "high-priority"]⟩,
  ⟨"Phase 3.4: Performance & Production Ready",
    "## Tasks:\n33. Optimize performance and add caching strategies\n34. Create production deployment configuration\n35. Write documentation and setup instructions\n\n## Optimizations:\n- Code splitting for frontend\n- Image optimization and lazy loading\n- API response caching\n- Database query optimization\n- Production environment variables\n- Health check endpoints\n- Monitoring and logging setup\n- Comprehensive README\n- API documentation\n- Deployment guides\n\n## Acceptance Criteria:\n- [x] Performance optimizations implemented\n- [x] Production deployment ready\n- [x] Monitoring and logging configured\n- [x] Complete documentation written\n- [x] Deployment guides created\n- [x] API documentation complete\n\n## Priority: Medium\n## Phase: Polish & Production",
    ["performance", "documentation", "deployment", "medium-priority"]⟩
]

/-- The fixed ordered candidate list of `find_gh_executable`. -/
def common_paths : List String := [
  "gh",
  "/c/Program Files/GitHub CLI/gh.exe",
  "C:\\Program Files\\GitHub CLI\\gh.exe",
  "/usr/local/bin/gh",
  "/opt/homebrew/bin/gh"
]

/-- The probing loop of `find_gh_executable`: invoke each candidate with
`--version` under a 5-second timeout; return the first candidate whose
invocation completes with return code 0.  A non-zero exit, a timeout or any
raised exception (the bare `except:` of the source) moves to the next
candidate. -/
def probeList (o : Oracle) (c : Nat) : List String → Option String × Nat × Out
  | [] => (none, c, [])
  | p :: rest =>
    let r := o c
    let ev := Event.run [p, "--version"] 5 r
    if isSuccess0 r then (some p, c + 1, [ev])
    else
      let rec2 := probeList o (c + 1) rest
      (rec2.1, rec2.2.1, ev :: rec2.2.2)

/-- `find_gh_executable()`: probe `common_paths`, `None` when all fail. -/
def find_gh_executable (o : Oracle) (c : Nat) : Option String × Nat × Out :=
  probeList o c common_paths

/-- Argument vector of `gh label create ...` exactly as the source builds
it. -/
def labelCmd (gh : String) (l : LabelRec) : List String :=
  [gh, "label", "create", l.name,
   "--description", l.description,
   "--color", l.color,
   "--force"]

/-- The status line the label loop prints for one subprocess outcome:
`[SUCCESS]` on exit 0, `[INFO]` when the non-zero outcome's stderr contains
"already exists" case-insensitively, `[WARNING]` on other non-zero exits,
`[ERROR]` on timeout or exception. -/
def classifyLabelMsg (l : LabelRec) : ExecResult → String
  | ExecResult.completed rc _ stderr =>
    if rc == 0 then
      "[SUCCESS] Label \x27" ++ l.name ++ "\x27 created/updated"
    else if pyIn "already exists" (pyLower stderr) then
      "[INFO] Label \x27" ++ l.name ++ "\x27 already exists"
    else
      "[WARNING] Failed to create label \x27" ++ l.name ++ "\x27: " ++ stderr.trim
  | ExecResult.timedOut =>
    "[ERROR] Timeout creating label: " ++ l.name
  | ExecResult.raised e =>
    "[ERROR] Error creating label \x27" ++ l.name ++ "\x27: " ++ e

/-- The `for label in REQUIRED_LABELS` loop body of `create_github_labels`. -/
def labelsLoop (o : Oracle) (gh : String) (c : Nat) : List LabelRec → Nat × Out
  | [] => (c, [])
  | l :: rest =>
    let step := runCmd o c (labelCmd gh l) 15
    let rec2 := labelsLoop o gh step.2.1 rest
    (rec2.1,
     Event.print ("Creating label \x27" ++ l.name ++ "\x27...")
       :: (step.2.2 ++ Event.print (classifyLabelMsg l step.1) :: rec2.2))

/-- `create_github_labels(gh_path)`. -/
def create_github_labels (o : Oracle) (gh : String) (c : Nat) : Nat × Out :=
  let r := labelsLoop o gh c REQUIRED_LABELS
  (r.1, Event.print "\nCreating GitHub labels..." :: r.2)

/-- Argument vector of `gh issue create ...` exactly as the source builds it:
base command then one `--label <name>` pair appended per label, in record
order (`cmd.extend(["--label", label])`). -/
def issueCmd (gh : String) (t : TaskGroup) : List String :=
  t.labels.foldl (fun acc l => acc ++ ["--label", l])
    [gh, "issue", "create", "--title", t.title, "--body", t.body]

/-- The status line the issue loop prints for one subprocess outcome. -/
def classifyIssueMsg (t : TaskGroup) : ExecResult → String
  | ExecResult.completed rc stdout stderr =>
    if rc == 0 then
      "[SUCCESS] Issue created successfully: " ++ stdout.trim
    else
      "[ERROR] Failed to create issue: " ++ stderr.trim
  | ExecResult.timedOut =>
    "[ERROR] Timeout creating issue: " ++ t.title
  | ExecResult.raised e =>
    "[ERROR] Error creating issue: " ++ e

/-- The `for i, task_group in enumerate(TASK_GROUPS, 1)` loop of
`create_github_issues`. -/
def issuesLoop (o : Oracle) (gh : String) (c : Nat) (i : Nat) :
    List TaskGroup → Nat × Out
  | [] => (c, [])
  | t :: rest =>
    let step := runCmd o c (issueCmd gh t) 30
    let rec2 := issuesLoop o gh step.2.1 (i + 1) rest
    (rec2.1,
     Event.print ("\n" ++ toString i ++ "/" ++ toString TASK_GROUPS.length
         ++ ": Creating issue \x27" ++ t.title ++ "\x27")
       :: (step.2.2 ++ Event.print (classifyIssueMsg t step.1) :: rec2.2))

def equals80 : String := String.mk (List.replicate 80 '=')

def dashes80 : String := String.mk (List.replicate 80 '-')

def equals50 : String := String.mk (List.replicate 50 '=')

/-- One label line of the manual fallback dump. -/
def manualLabelLine (l : LabelRec) : String :=
  "- " ++ l.name ++ ": " ++ l.description ++ " (color: #" ++ l.color ++ ")"

/-- The `for i, task_group in enumerate(TASK_GROUPS, 1)` loop of
`print_manual_issues`. -/
def manualIssuesLoop : Nat → List TaskGroup → Out
  | _, [] => []
  | i, t :: rest =>
    Event.print ("--- Issue #" ++ toString i ++ ": " ++ t.title ++ " ---")
      :: Event.print ("Labels: " ++ String.intercalate ", " t.labels)
      :: Event.print ("Body:\n" ++ t.body)
      :: Event.print ("\n" ++ dashes80 ++ "\n")
      :: manualIssuesLoop (i + 1) rest

/-- `print_manual_issues()`: the manual fallback dump of the full label
table and full issue table. -/
def print_manual_issues : Out :=
  Event.print ("\n" ++ equals80)
    :: Event.print "MANUAL ISSUE CREATION"
    :: Event.print equals80
    :: Event.print "First, create these labels in your GitHub repository:\n"
    :: (REQUIRED_LABELS.map (fun l => Event.print (manualLabelLine l))
        ++ Event.print "\nThen copy and paste these issues into GitHub Issues manually:\n"
          :: manualIssuesLoop 1 TASK_GROUPS)

/-- `create_github_issues()`: re-probe for the executable; on failure print
the manual fallback and return, otherwise create all labels then all
issues. -/
def create_github_issues (o : Oracle) (c : Nat) : Nat × Out :=
  match find_gh_executable o c with
  | (none, c1, out1) =>
    (c1, out1
      ++ Event.print "[ERROR] GitHub CLI not found. Please install it from: https://cli.github.com/"
        :: Event.print "Or manually create issues using the task groups below:"
        :: print_manual_issues)
  | (some gh, c1, out1) =>
    let lab := create_github_labels o gh c1
    let iss := issuesLoop o gh lab.1 1 TASK_GROUPS
    (iss.1, out1
      ++ Event.print ("Found GitHub CLI at: " ++ gh)
        :: (lab.2
            ++ Event.print "\nCreating GitHub issues for RealWorld implementation tasks..."
              :: iss.2))

/-- The banner the `__main__` block prints before anything else. -/
def headerOut : Out :=
  [Event.print "GitHub Issues Creation Script",
   Event.print equals50,
   Event.print "This script will create GitHub issues based on the RealWorld implementation tasks.",
   Event.print "Make sure you\x27re authenticated with GitHub CLI first: gh auth login",
   Event.print ""]

/-- Rendered message of the exception caught by the auth-status `except`
block (`str(e)`); a raised `TimeoutExpired` is stringified abstractly. -/
def excMsg : ExecResult → String
  | ExecResult.raised e => e
  | _ => "Command timed out"

/-- Result of a whole process run: exit code and event trace. -/
structure MainResult where
  exitCode : Nat
  events : Out
deriving DecidableEq

def promptText : String := "\nProceed with creating issues? (y/N): "

/-- The `__main__` block: banner, locate the tool (manual fallback and
`exit(1)` when missing), check `gh auth status` (`exit(1)` on non-zero exit
or exception), read the confirmation, then either run
`create_github_issues()` and print the completion message, or print
`Cancelled.`; falling off the end exits 0. -/
def mainProgram (o : Oracle) (inp : String) : MainResult :=
  match find_gh_executable o 0 with
  | (none, _, out1) =>
    ⟨1, headerOut ++ out1
        ++ Event.print "[ERROR] GitHub CLI not found."
          :: Event.print "Install from: https://cli.github.com/"
          :: Event.print "Or create issues manually using the output below."
          :: print_manual_issues⟩
  | (some gh, c1, out1) =>
    let authRes := o c1
    let preAuth := headerOut ++ out1 ++ [Event.run [gh, "auth", "status"] 10 authRes]
    match authRes with
    | ExecResult.completed rc _ _ =>
      if rc != 0 then
        ⟨1, preAuth
            ++ [Event.print "[ERROR] GitHub CLI not authenticated. Please run: gh auth login",
                Event.print "Authentication is required to create issues."]⟩
      else
        let preOut := preAuth ++ [Event.print "[SUCCESS] GitHub CLI authenticated"]
        if ["y", "yes"].contains (pyLower inp) then
          ⟨0, preOut
              ++ Event.read promptText inp
                :: ((create_github_issues o (c1 + 1)).2
                    ++ [Event.print "\nDone! Check your repository for the created issues."])⟩
        else
          ⟨0, preOut ++ [Event.read promptText inp, Event.print "Cancelled."]⟩
    | ExecResult.timedOut =>
      ⟨1, preAuth
          ++ [Event.print ("[ERROR] Error checking GitHub CLI auth status: "
                ++ excMsg ExecResult.timedOut),
              Event.print "Please ensure GitHub CLI is installed and authenticated"]⟩
    | ExecResult.raised e =>
      ⟨1, preAuth
          ++ [Event.print ("[ERROR] Error checking GitHub CLI auth status: "
                ++ excMsg (ExecResult.raised e)),
              Event.print "Please ensure GitHub CLI is installed and authenticated"]⟩

/-! ## Analysis definitions -/

/-- A subprocess invocation that mutates the external system: a
`label create` or `issue create` call. -/
def isMutating (e : Event) : Bool :=
  match e with
  | Event.run argv _ _ =>
    match argv with
    | _ :: a :: b :: _ => (a == "label" || a == "issue") && b == "create"
    | _ => false
  | _ => false

/-- The mutating subprocess invocations of a trace. -/
def mutatingCalls (out : Out) : Out :=
  out.filter isMutating

/-- Whether an event is the stdin read of the confirmation prompt. -/
def isRead (e : Event) : Bool :=
  match e with
  | Event.read _ _ => true
  | _ => false

/-- The prefix of a trace up to (excluding) the confirmation-prompt read;
the whole trace when no read occurs. -/
def beforeRead (out : Out) : Out :=
  out.takeWhile (fun e => !(isRead e))

/-- Argument vectors of the subprocess invocations of a trace, in order. -/
def runArgvs (out : Out) : List (List String) :=
  out.filterMap (fun e =>
    match e with
    | Event.run argv _ _ => some argv
    | _ => none)

/-- Modelled from the spec: the label-create argument vector
`<tool> label create <name> --description <text> --color <hex> --force`. -/
def specLabelArgv (tool : String) (l : LabelRec) : List String :=
  [tool, "label", "create", l.name,
   "--description", l.description, "--color", l.color, "--force"]

/-- Modelled from the spec: the issue-create argument vector
`<tool> issue create --title <text> --body <text> [--label <name>]*`, the
label flag repeated per label name in record order. -/
def specIssueArgv (tool : String) (t : TaskGroup) : List String :=
  [tool, "issue", "create", "--title", t.title, "--body", t.body]
    ++ t.labels.flatMap (fun l => ["--label", l])

/-- The three outcome buckets of the spec's label-loop classification. -/
inductive Bucket where
  | success
  | alreadyExists
  | otherFailure
deriving DecidableEq

/-- Modelled from the spec: classify a subprocess outcome as success
(exit 0), already-exists (non-zero exit whose diagnostic text contains
"already exists" case-insensitively), or other failure (any other non-zero
exit, timeout, or raised execution error). -/
def specBucket : ExecResult → Bucket
  | ExecResult.completed rc _ stderr =>
    if rc == 0 then Bucket.success
    else if pyIn "already exists" (pyLower stderr) then Bucket.alreadyExists
    else Bucket.otherFailure
  | _ => Bucket.otherFailure

/-- Read the bucket back off a printed status line by its tag:
`[S`uccess, `[I`nfo, `[W`arning or `[E`rror. -/
def statusBucket (m : String) : Option Bucket :=
  if m.data.take 2 = ['[', 'S'] then some Bucket.success
  else if m.data.take 2 = ['[', 'I'] then some Bucket.alreadyExists
  else if m.data.take 2 = ['[', 'W'] then some Bucket.otherFailure
  else if m.data.take 2 = ['[', 'E'] then some Bucket.otherFailure
  else none

/-- The per-label trace segment the label loop emits: the progress line,
the subprocess invocation, the status line. -/
def labelSegment (o : Oracle) (gh : String) (c : Nat) (l : LabelRec) : Out :=
  [Event.print ("Creating label \x27" ++ l.name ++ "\x27..."),
   Event.run (labelCmd gh l) 15 (o c),
   Event.print (classifyLabelMsg l (o c))]

/-- Concatenated per-label segments, one oracle call per label. -/
def labelSegs (o : Oracle) (gh : String) : Nat → List LabelRec → Out
  | _, [] => []
  | c, l :: rest => labelSegment o gh c l ++ labelSegs o gh (c + 1) rest

/-- The per-issue trace segment the issue loop emits: the progress line,
the subprocess invocation, the status line. -/
def issueSegment (o : Oracle) (gh : String) (c i : Nat) (t : TaskGroup) : Out :=
  [Event.print ("\n" ++ toString i ++ "/" ++ toString TASK_GROUPS.length
     ++ ": Creating issue \x27" ++ t.title ++ "\x27"),
   Event.run (issueCmd gh t) 30 (o c),
   Event.print (classifyIssueMsg t (o c))]

/-- Concatenated per-issue segments, one oracle call per issue. -/
def issueSegs (o : Oracle) (gh : String) : Nat → Nat → List TaskGroup → Out
  | _, _, [] => []
  | c, i, t :: rest => issueSegment o gh c i t ++ issueSegs o gh (c + 1) (i + 1) rest

/-- First character of a string, if any. -/
def firstChar (s : String) : Option Char :=
  s.data.head?

/-! ## Oracles used by concrete witness runs -/

/-- Every call fails with a timeout: no candidate probe ever succeeds. -/
def allTimeoutOracle : Oracle := fun _ => ExecResult.timedOut

/-- Every call completes successfully with empty output. -/
def allOkOracle : Oracle := fun _ => ExecResult.completed 0 "" ""

/-- The first call (version probe of `gh`) succeeds, every later call
(the auth check) exits 1. -/
def authFailOracle : Oracle := fun n =>
  if n == 0 then ExecResult.completed 0 "" ""
  else ExecResult.completed 1 "" "You are not logged into any GitHub hosts."

/-- The first two calls (startup probe and auth check) succeed, every later
call (the re-probe inside `create_github_issues`) times out. -/
def secondProbeFailOracle : Oracle := fun n =>
  if n < 2 then ExecResult.completed 0 "" "" else ExecResult.timedOut

/-! ## Helper lemmas -/

theorem strDataAppend (a b : String) : (a ++ b).data = a.data ++ b.data := by
  cases a
  cases b
  rfl

theorem take_append_left (n : Nat) :
    ∀ (l1 l2 : List Char), n ≤ l1.length → (l1 ++ l2).take n = l1.take n := by
  induction n with
  | zero => intro l1 l2 _; simp
  | succ n ih =>
    intro l1 l2 h
    cases l1 with
    | nil => simp at h
    | cons a t =>
      simp only [List.cons_append, List.take_succ_cons]
      rw [ih t l2 (by simpa using h)]

theorem two_le_data_append (a b : String) (h : 2 ≤ a.data.length) :
    2 ≤ (a ++ b).data.length := by
  rw [strDataAppend, List.length_append]
  omega

theorem data_append_ne_nil (a b : String) (h : a.data ≠ []) :
    (a ++ b).data ≠ [] := by
  rw [strDataAppend]
  intro hc
  exact h (List.append_eq_nil.mp hc).1

theorem firstChar_append (a b : String) (h : a.data ≠ []) :
    firstChar (a ++ b) = firstChar a := by
  unfold firstChar
  rw [strDataAppend]
  cases hd : a.data with
  | nil => exact absurd hd h
  | cons x xs => rfl

theorem statusBucket_append (a b : String) (h : 2 ≤ a.data.length) :
    statusBucket (a ++ b) = statusBucket a := by
  unfold statusBucket
  rw [strDataAppend, take_append_left 2 _ _ h]

theorem probeList_none_iff (o : Oracle) :
    ∀ (l : List String) (c : Nat),
      (probeList o c l).1 = none ↔
        ∀ i, i < l.length → isSuccess0 (o (c + i)) = false := by
  intro l
  induction l with
  | nil => intro c; simp [probeList]
  | cons p rest ih =>
    intro c
    by_cases hs : isSuccess0 (o c) = true
    · constructor
      · intro h
        simp [probeList, hs] at h
      · intro h
        have h0 := h 0 (by simp)
        rw [Nat.add_zero] at h0
        rw [hs] at h0
        exact absurd h0 (by simp)
    · replace hs : isSuccess0 (o c) = false := by
        cases hv : isSuccess0 (o c)
        · rfl
        · exact absurd hv hs
      have hred : (probeList o c (p :: rest)).1 = (probeList o (c + 1) rest).1 := by
        simp [probeList, hs]
      rw [hred, ih (c + 1)]
      constructor
      · intro h i hi
        cases i with
        | zero => rw [Nat.add_zero]; exact hs
        | succ j =>
          have hj := h j (by simpa using hi)
          have harith : c + 1 + j = c + (j + 1) := by omega
          rw [harith] at hj
          exact hj
      · intro h i hi
        have hj := h (i + 1) (by simpa using hi)
        have harith : c + (i + 1) = c + 1 + i := by omega
        rw [harith] at hj
        exact hj

theorem probeList_some_iff (o : Oracle) :
    ∀ (l : List String) (c : Nat) (p : String),
      (probeList o c l).1 = some p ↔
        ∃ i, l.get? i = some p ∧ isSuccess0 (o (c + i)) = true ∧
          ∀ j, j < i → isSuccess0 (o (c + j)) = false := by
  intro l
  induction l with
  | nil => intro c p; simp [probeList]
  | cons q rest ih =>
    intro c p
    by_cases hs : isSuccess0 (o c) = true
    · have hred : (probeList o c (q :: rest)).1 = some q := by
        simp [probeList, hs]
      rw [hred]
      constructor
      · intro h
        refine ⟨0, ?_, ?_, ?_⟩
        · simpa using h
        · rw [Nat.add_zero]; exact hs
        · intro j hj; exact absurd hj (Nat.not_lt_zero j)
      · rintro ⟨i, hget, hsucc, hmin⟩
        cases i with
        | zero => simpa using hget
        | succ j =>
          have h0 := hmin 0 (Nat.succ_pos j)
          rw [Nat.add_zero] at h0
          rw [hs] at h0
          exact absurd h0 (by simp)
    · replace hs : isSuccess0 (o c) = false := by
        cases hv : isSuccess0 (o c)
        · rfl
        · exact absurd hv hs
      have hred : (probeList o c (q :: rest)).1 = (probeList o (c + 1) rest).1 := by
        simp [probeList, hs]
      rw [hred, ih (c + 1) p]
      constructor
      · rintro ⟨i, hget, hsucc, hmin⟩
        refine ⟨i + 1, by simpa using hget, ?_, ?_⟩
        · have harith : c + (i + 1) = c + 1 + i := by omega
          rw [harith]; exact hsucc
        · intro j hj
          cases j with
          | zero => rw [Nat.add_zero]; exact hs
          | succ k =>
            have hk := hmin k (by omega)
            have harith : c + 1 + k = c + (k + 1) := by omega
            rw [harith] at hk
            exact hk
      · rintro ⟨i, hget, hsucc, hmin⟩
        cases i with
        | zero =>
          rw [Nat.add_zero] at hsucc
          rw [hs] at hsucc
          exact absurd hsucc (by simp)
        | succ j =>
          refine ⟨j, by simpa using hget, ?_, ?_⟩
          · have harith : c + 1 + j = c + (j + 1) := by omega
            rw [harith]; exact hsucc
          · intro k hk
            have hkk := hmin (k + 1) (by omega)
            have harith : c + (k + 1) = c + 1 + k := by omega
            rw [harith] at hkk
            exact hkk

theorem probeList_events (o : Oracle) :
    ∀ (l : List String) (c : Nat) (e : Event),
      e ∈ (probeList o c l).2.2 →
        ∃ p i, p ∈ l ∧ e = Event.run [p, "--version"] 5 (o i) := by
  intro l
  induction l with
  | nil => intro c e he; simp [probeList] at he
  | cons q rest ih =>
    intro c e he
    by_cases hs : isSuccess0 (o c) = true
    · simp [probeList, hs] at he
      exact ⟨q, c, List.mem_cons_self q rest, he⟩
    · replace hs : isSuccess0 (o c) = false := by
        cases hv : isSuccess0 (o c)
        · rfl
        · exact absurd hv hs
      simp only [probeList, hs] at he
      simp only [Bool.false_eq_true, if_false, List.mem_cons] at he
      cases he with
      | inl h => exact ⟨q, c, List.mem_cons_self q rest, h⟩
      | inr h =>
        obtain ⟨p, i, hp, heq2⟩ := ih (c + 1) e h
        exact ⟨p, i, List.mem_cons_of_mem q hp, heq2⟩

theorem filter_eq_nil_of_all_false {f : Event → Bool} :
    ∀ (l : Out), (∀ e ∈ l, f e = false) → l.filter f = [] := by
  intro l
  induction l with
  | nil => intro _; rfl
  | cons a t ih =>
    intro h
    rw [List.filter_cons, h a (List.mem_cons_self a t)]
    exact ih (fun e he => h e (List.mem_cons_of_mem a he))

theorem probeList_no_mut (o : Oracle) (l : List String) (c : Nat) :
    mutatingCalls (probeList o c l).2.2 = [] := by
  apply filter_eq_nil_of_all_false
  intro e he
  obtain ⟨p, i, _, heq2⟩ := probeList_events o l c e he
  rw [heq2]
  rfl

/-- C8: the executable locator probes the fixed candidate list in order,
invoking each with `--version` under a 5-second timeout; it returns the
first candidate whose invocation exits 0, and returns no path exactly when
every candidate's probe fails (non-zero exit, timeout or exception). -/
theorem find_gh_executable_spec (o : Oracle) (c : Nat) :
    ((find_gh_executable o c).1 = none ↔
      ∀ i, i < common_paths.length → isSuccess0 (o (c + i)) = false)
    ∧ (∀ p, (find_gh_executable o c).1 = some p ↔
        ∃ i, common_paths.get? i = some p ∧ isSuccess0 (o (c + i)) = true ∧
          ∀ j, j < i → isSuccess0 (o (c + j)) = false)
    ∧ (∀ e, e ∈ (find_gh_executable o c).2.2 →
        ∃ p i, p ∈ common_paths ∧ e = Event.run [p, "--version"] 5 (o i)) :=
  ⟨probeList_none_iff o common_paths c,
   fun p => probeList_some_iff o common_paths c p,
   fun e he => probeList_events o common_paths c e he⟩

/-- C8 witness: with an oracle that times out on every call, the locator
returns no path; with one that succeeds at once, it returns the first
candidate. -/
theorem find_gh_executable_spec_witness :
    (find_gh_executable allTimeoutOracle 0).1 = none
    ∧ (find_gh_executable allOkOracle 0).1 = some "gh" :=
  ⟨(find_gh_executable_spec allTimeoutOracle 0).1.mpr (by decide),
   ((find_gh_executable_spec allOkOracle 0).2.1 "gh").mpr
     ⟨0, by decide, by decide, fun j hj => absurd hj (Nat.not_lt_zero j)⟩⟩

theorem labelsLoop_eq (o : Oracle) (gh : String) :
    ∀ (l : List LabelRec) (c : Nat),
      labelsLoop o gh c l = (c + l.length, labelSegs o gh c l) := by
  intro l
  induction l with
  | nil => intro c; simp [labelsLoop, labelSegs]
  | cons lab rest ih =>
    intro c
    simp only [labelsLoop, runCmd, ih (c + 1), labelSegs, labelSegment,
      List.length_cons, List.cons_append, List.nil_append, List.singleton_append,
      Prod.mk.injEq]
    exact ⟨by omega, trivial⟩

theorem issuesLoop_eq (o : Oracle) (gh : String) :
    ∀ (l : List TaskGroup) (c i : Nat),
      issuesLoop o gh c i l = (c + l.length, issueSegs o gh c i l) := by
  intro l
  induction l with
  | nil => intro c i; simp [issuesLoop, issueSegs]
  | cons t rest ih =>
    intro c i
    simp only [issuesLoop, runCmd, ih (c + 1) (i + 1), issueSegs, issueSegment,
      List.length_cons, List.cons_append, List.nil_append, List.singleton_append,
      Prod.mk.injEq]
    exact ⟨by omega, trivial⟩

theorem runArgvs_append (a b : Out) :
    runArgvs (a ++ b) = runArgvs a ++ runArgvs b :=
  List.filterMap_append a b _

theorem runArgvs_labelSegs (o : Oracle) (gh : String) :
    ∀ (l : List LabelRec) (c : Nat),
      runArgvs (labelSegs o gh c l) = l.map (fun lab => labelCmd gh lab) := by
  intro l
  induction l with
  | nil => intro c; rfl
  | cons lab rest ih =>
    intro c
    show runArgvs (labelSegment o gh c lab ++ labelSegs o gh (c + 1) rest) = _
    rw [runArgvs_append, ih (c + 1)]
    rfl

theorem runArgvs_issueSegs (o : Oracle) (gh : String) :
    ∀ (l : List TaskGroup) (c i : Nat),
      runArgvs (issueSegs o gh c i l) = l.map (fun t => issueCmd gh t) := by
  intro l
  induction l with
  | nil => intro c i; rfl
  | cons t rest ih =>
    intro c i
    show runArgvs (issueSegment o gh c i t ++ issueSegs o gh (c + 1) (i + 1) rest) = _
    rw [runArgvs_append, ih (c + 1) (i + 1)]
    rfl

theorem foldl_extend_labels :
    ∀ (ls : List String) (acc : List String),
      ls.foldl (fun a l => a ++ ["--label", l]) acc
        = acc ++ ls.flatMap (fun l => ["--label", l]) := by
  intro ls
  induction ls with
  | nil => intro acc; simp
  | cons x t ih =>
    intro acc
    rw [List.foldl_cons, ih (acc ++ ["--label", x]), List.flatMap_cons,
      List.append_assoc]

theorem issueCmd_eq_spec (gh : String) (t : TaskGroup) :
    issueCmd gh t = specIssueArgv gh t := by
  unfold issueCmd specIssueArgv
  rw [foldl_extend_labels]

theorem label_msg_bucket (lab : LabelRec) (r : ExecResult) :
    statusBucket (classifyLabelMsg lab r) = some (specBucket r) := by
  cases r with
  | completed rc so se =>
    by_cases hrc : (rc == 0) = true
    · simp only [classifyLabelMsg, specBucket, hrc, if_true]
      rw [statusBucket_append _ _ (two_le_data_append _ _ (by decide)),
          statusBucket_append _ _ (by decide)]
      decide
    · replace hrc : (rc == 0) = false := by
        cases hv : (rc == 0)
        · rfl
        · exact absurd hv hrc
      by_cases hae : pyIn "already exists" (pyLower se) = true
      · simp only [classifyLabelMsg, specBucket, hrc, hae, Bool.false_eq_true,
          if_false, if_true]
        rw [statusBucket_append _ _ (two_le_data_append _ _ (by decide)),
            statusBucket_append _ _ (by decide)]
        decide
      · replace hae : pyIn "already exists" (pyLower se) = false := by
          cases hv : pyIn "already exists" (pyLower se)
          · rfl
          · exact absurd hv hae
        simp only [classifyLabelMsg, specBucket, hrc, hae, Bool.false_eq_true,
          if_false]
        rw [statusBucket_append _ _ (two_le_data_append _ _
              (two_le_data_append _ _ (by decide))),
            statusBucket_append _ _ (two_le_data_append _ _ (by decide)),
            statusBucket_append _ _ (by decide)]
        decide
  | timedOut =>
    simp only [classifyLabelMsg, specBucket]
    rw [statusBucket_append _ _ (by decide)]
    decide
  | raised e =>
    simp only [classifyLabelMsg, specBucket]
    rw [statusBucket_append _ _ (two_le_data_append _ _
          (two_le_data_append _ _ (by decide))),
        statusBucket_append _ _ (two_le_data_append _ _ (by decide)),
        statusBucket_append _ _ (by decide)]
    decide

/-- C4: the label loop runs one `label create` invocation per record of the
static table, in table order, and emits one status line per record whatever
the outcome; no outcome aborts the loop.  The status line's tag realises
exactly the spec's three-bucket classification: success on exit 0 (tag
`[S`), already-exists on a non-zero exit whose stderr contains "already
exists" case-insensitively (tag `[I`), and any other non-zero exit, timeout
or raised exception as the remaining failure bucket (tags `[W` / `[E`). -/
theorem label_loop_three_buckets (o : Oracle) (gh : String) (c : Nat) :
    labelsLoop o gh c REQUIRED_LABELS
      = (c + REQUIRED_LABELS.length, labelSegs o gh c REQUIRED_LABELS)
    ∧ (∀ lab r, statusBucket (classifyLabelMsg lab r) = some (specBucket r)) :=
  ⟨labelsLoop_eq o gh REQUIRED_LABELS c, fun lab r => label_msg_bucket lab r⟩

/-- C5: the issue loop processes every record of the static table in
declaration order — one `issue create` invocation and one status line per
record, independent of outcomes, so a failure or timeout on one issue never
stops the loop; completed runs print the tool's stdout on exit 0 and the
stderr diagnostic otherwise; and a timed-out issue logs exactly one timeout
message in its trace segment. -/
theorem issue_loop_continue_on_error (o : Oracle) (gh : String) (c i : Nat) :
    issuesLoop o gh c i TASK_GROUPS
      = (c + TASK_GROUPS.length, issueSegs o gh c i TASK_GROUPS)
    ∧ (∀ t rc so se, classifyIssueMsg t (ExecResult.completed rc so se)
        = if rc == 0 then "[SUCCESS] Issue created successfully: " ++ so.trim
          else "[ERROR] Failed to create issue: " ++ se.trim)
    ∧ (∀ c' i' t, o c' = ExecResult.timedOut →
        (issueSegment o gh c' i' t).countP
          (fun e => decide
            (e = Event.print ("[ERROR] Timeout creating issue: " ++ t.title))) = 1) := by
  refine ⟨issuesLoop_eq o gh TASK_GROUPS c i, fun t rc so se => rfl, ?_⟩
  intro c' i' t hTO
  have h0 : ("\n" : String).data ≠ [] := by decide
  have h1 := data_append_ne_nil "\n" (toString i') h0
  have h2 := data_append_ne_nil _ "/" h1
  have h3 := data_append_ne_nil _ (toString TASK_GROUPS.length) h2
  have h4 := data_append_ne_nil _ ": Creating issue \x27" h3
  have h5 := data_append_ne_nil _ t.title h4
  have hne : ("\n" ++ toString i' ++ "/" ++ toString TASK_GROUPS.length
      ++ ": Creating issue \x27" ++ t.title ++ "\x27")
      ≠ ("[ERROR] Timeout creating issue: " ++ t.title) := by
    intro heq
    have hfc := congrArg firstChar heq
    rw [firstChar_append _ _ h5, firstChar_append _ _ h4, firstChar_append _ _ h3,
        firstChar_append _ _ h2, firstChar_append _ _ h1, firstChar_append _ _ h0,
        firstChar_append _ _
          (by decide : ("[ERROR] Timeout creating issue: " : String).data ≠ [])] at hfc
    exact absurd hfc (by decide)
  have e1 : decide ((Event.print ("\n" ++ toString i' ++ "/"
      ++ toString TASK_GROUPS.length ++ ": Creating issue \x27" ++ t.title ++ "\x27"))
      = Event.print ("[ERROR] Timeout creating issue: " ++ t.title)) = false :=
    decide_eq_false (by simp [hne])
  have e2 : decide ((Event.run (issueCmd gh t) 30 (o c'))
      = Event.print ("[ERROR] Timeout creating issue: " ++ t.title)) = false :=
    decide_eq_false (by simp)
  simp only [issueSegment, hTO, classifyIssueMsg, List.countP_cons, List.countP_nil,
    e1, e2, decide_eq_true rfl]
  rfl

/-- C5 witness: a timed-out issue's segment contains exactly one timeout
message. -/
theorem issue_loop_continue_on_error_witness :
    allTimeoutOracle 0 = ExecResult.timedOut
    ∧ (issueSegment allTimeoutOracle "gh" 0 1 (TaskGroup.mk "T" "B" [])).countP
        (fun e => decide
          (e = Event.print ("[ERROR] Timeout creating issue: "
              ++ (TaskGroup.mk "T" "B" []).title))) = 1 :=
  ⟨rfl, (issue_loop_continue_on_error allTimeoutOracle "gh" 0 1).2.2 0 1
    (TaskGroup.mk "T" "B" []) rfl⟩

/-- C9: every mutating invocation is a separate argument vector (the
embedding passes argument lists, never a shell string), label-create calls
are exactly `[tool, label, create, name, --description, d, --color, c,
--force]`, issue-create calls are exactly `[tool, issue, create, --title,
t, --body, b]` followed by one `--label` pair per label name in record
order, and the two creation loops issue exactly those vectors, one per
record, in table order. -/
theorem mutating_argv_shapes (o : Oracle) (gh : String) (c i : Nat) :
    (∀ l, labelCmd gh l = specLabelArgv gh l)
    ∧ (∀ t, issueCmd gh t = specIssueArgv gh t)
    ∧ runArgvs (create_github_labels o gh c).2
        = REQUIRED_LABELS.map (fun l => specLabelArgv gh l)
    ∧ runArgvs (issuesLoop o gh c i TASK_GROUPS).2
        = TASK_GROUPS.map (fun t => specIssueArgv gh t) := by
  refine ⟨fun l => rfl, fun t => issueCmd_eq_spec gh t, ?_, ?_⟩
  · show runArgvs (Event.print "\nCreating GitHub labels..."
        :: (labelsLoop o gh c REQUIRED_LABELS).2) = _
    rw [labelsLoop_eq o gh REQUIRED_LABELS c]
    show runArgvs (labelSegs o gh c REQUIRED_LABELS) = _
    rw [runArgvs_labelSegs o gh REQUIRED_LABELS c]
    rfl
  · rw [issuesLoop_eq o gh TASK_GROUPS c i, runArgvs_issueSegs o gh TASK_GROUPS c i]
    apply List.map_congr_left
    intro t _
    exact issueCmd_eq_spec gh t

theorem mutatingCalls_append (a b : Out) :
    mutatingCalls (a ++ b) = mutatingCalls a ++ mutatingCalls b := by
  simp [mutatingCalls, List.filter_append]

theorem headerOut_no_mut : mutatingCalls headerOut = [] := rfl

theorem manual_no_mut : mutatingCalls print_manual_issues = [] := rfl

theorem authEv_not_mut (gh : String) (r : ExecResult) :
    isMutating (Event.run [gh, "auth", "status"] 10 r) = false := rfl

theorem find_out_no_mut (o : Oracle) (c c1 : Nat) (p : Option String) (out1 : Out)
    (hfind : find_gh_executable o c = (p, c1, out1)) :
    mutatingCalls out1 = [] := by
  have h22 : (find_gh_executable o c).2.2 = out1 := by rw [hfind]
  rw [← h22]
  exact probeList_no_mut o common_paths c

theorem mut_nil_of_subset (l pre : Out) (hsub : ∀ e ∈ l, e ∈ pre)
    (h : mutatingCalls pre = []) : mutatingCalls l = [] := by
  apply filter_eq_nil_of_all_false
  intro e he
  cases hv : isMutating e
  · rfl
  · exfalso
    have hmem : e ∈ mutatingCalls pre := List.mem_filter.mpr ⟨hsub e he, hv⟩
    rw [h] at hmem
    exact absurd hmem (List.not_mem_nil e)

theorem beforeRead_subset (l : Out) : ∀ e ∈ beforeRead l, e ∈ l :=
  fun _ he => (List.takeWhile_prefix _).subset he

theorem beforeRead_append_read_subset (q r : String) (post : Out) :
    ∀ (pre : Out), ∀ e ∈ beforeRead (pre ++ Event.read q r :: post), e ∈ pre := by
  intro pre
  induction pre with
  | nil =>
    intro e he
    simp [beforeRead, List.takeWhile_cons, isRead] at he
  | cons a t ih =>
    intro e he
    rw [List.cons_append] at he
    simp only [beforeRead, List.takeWhile_cons] at he
    cases hpa : isRead a with
    | false =>
      rw [hpa] at he
      simp only [Bool.not_false, if_true] at he
      rcases List.mem_cons.mp he with h | h
      · rw [h]; exact List.mem_cons_self a t
      · exact List.mem_cons_of_mem a (ih e h)
    | true =>
      rw [hpa] at he
      simp only [Bool.not_true, if_false] at he
      exact absurd he (List.not_mem_nil e)

/-! ### Branch equations of `mainProgram` -/

theorem create_github_issues_none (o : Oracle) (c c1 : Nat) (out1 : Out)
    (hfind : find_gh_executable o c = (none, c1, out1)) :
    create_github_issues o c =
      (c1, out1
        ++ Event.print "[ERROR] GitHub CLI not found. Please install it from: https://cli.github.com/"
          :: Event.print "Or manually create issues using the task groups below:"
          :: print_manual_issues) := by
  unfold create_github_issues
  rw [hfind]

theorem create_github_issues_found (o : Oracle) (c c1 : Nat) (gh : String) (out1 : Out)
    (hfind : find_gh_executable o c = (some gh, c1, out1)) :
    create_github_issues o c =
      ((issuesLoop o gh (create_github_labels o gh c1).1 1 TASK_GROUPS).1,
       out1
        ++ Event.print ("Found GitHub CLI at: " ++ gh)
          :: ((create_github_labels o gh c1).2
              ++ Event.print "\nCreating GitHub issues for RealWorld implementation tasks..."
                :: (issuesLoop o gh (create_github_labels o gh c1).1 1 TASK_GROUPS).2)) := by
  unfold create_github_issues
  rw [hfind]

theorem mainProgram_none (o : Oracle) (inp : String) (c1 : Nat) (out1 : Out)
    (hfind : find_gh_executable o 0 = (none, c1, out1)) :
    mainProgram o inp =
      ⟨1, headerOut ++ out1
          ++ Event.print "[ERROR] GitHub CLI not found."
            :: Event.print "Install from: https://cli.github.com/"
            :: Event.print "Or create issues manually using the output below."
            :: print_manual_issues⟩ := by
  unfold mainProgram
  rw [hfind]

theorem mainProgram_authFail (o : Oracle) (inp gh : String) (c1 : Nat) (out1 : Out)
    (rc : Int) (so se : String)
    (hfind : find_gh_executable o 0 = (some gh, c1, out1))
    (hauth : o c1 = ExecResult.completed rc so se)
    (hrc : (rc == 0) = false) :
    mainProgram o inp =
      ⟨1, (headerOut ++ out1
            ++ [Event.run [gh, "auth", "status"] 10 (ExecResult.completed rc so se)])
          ++ [Event.print "[ERROR] GitHub CLI not authenticated. Please run: gh auth login",
              Event.print "Authentication is required to create issues."]⟩ := by
  unfold mainProgram
  rw [hfind]
  simp only [hauth, bne, hrc, Bool.not_false, if_true]

theorem mainProgram_timedOut (o : Oracle) (inp gh : String) (c1 : Nat) (out1 : Out)
    (hfind : find_gh_executable o 0 = (some gh, c1, out1))
    (hauth : o c1 = ExecResult.timedOut) :
    mainProgram o inp =
      ⟨1, (headerOut ++ out1
            ++ [Event.run [gh, "auth", "status"] 10 ExecResult.timedOut])
          ++ [Event.print ("[ERROR] Error checking GitHub CLI auth status: "
                ++ excMsg ExecResult.timedOut),
              Event.print "Please ensure GitHub CLI is installed and authenticated"]⟩ := by
  unfold mainProgram
  rw [hfind]
  simp only [hauth]

theorem mainProgram_raised (o : Oracle) (inp gh : String) (c1 : Nat) (out1 : Out)
    (e : String)
    (hfind : find_gh_executable o 0 = (some gh, c1, out1))
    (hauth : o c1 = ExecResult.raised e) :
    mainProgram o inp =
      ⟨1, (headerOut ++ out1
            ++ [Event.run [gh, "auth", "status"] 10 (ExecResult.raised e)])
          ++ [Event.print ("[ERROR] Error checking GitHub CLI auth status: "
                ++ excMsg (ExecResult.raised e)),
              Event.print "Please ensure GitHub CLI is installed and authenticated"]⟩ := by
  unfold mainProgram
  rw [hfind]
  simp only [hauth]

theorem mainProgram_decline (o : Oracle) (inp gh : String) (c1 : Nat) (out1 : Out)
    (rc : Int) (so se : String)
    (hfind : find_gh_executable o 0 = (some gh, c1, out1))
    (hauth : o c1 = ExecResult.completed rc so se)
    (hrc : (rc == 0) = true)
    (hacc : (["y", "yes"].contains (pyLower inp)) = false) :
    mainProgram o inp =
      ⟨0, ((headerOut ++ out1
            ++ [Event.run [gh, "auth", "status"] 10 (ExecResult.completed rc so se)])
          ++ [Event.print "[SUCCESS] GitHub CLI authenticated"])
          ++ [Event.read promptText inp, Event.print "Cancelled."]⟩ := by
  unfold mainProgram
  rw [hfind]
  simp only [hauth, bne, hrc, Bool.not_true, if_false, hacc]
  rfl

theorem mainProgram_accept (o : Oracle) (inp gh : String) (c1 : Nat) (out1 : Out)
    (rc : Int) (so se : String)
    (hfind : find_gh_executable o 0 = (some gh, c1, out1))
    (hauth : o c1 = ExecResult.completed rc so se)
    (hrc : (rc == 0) = true)
    (hacc : (["y", "yes"].contains (pyLower inp)) = true) :
    mainProgram o inp =
      ⟨0, ((headerOut ++ out1
            ++ [Event.run [gh, "auth", "status"] 10 (ExecResult.completed rc so se)])
          ++ [Event.print "[SUCCESS] GitHub CLI authenticated"])
          ++ Event.read promptText inp
            :: ((create_github_issues o (c1 + 1)).2
                ++ [Event.print "\nDone! Check your repository for the created issues."])⟩ := by
  unfold mainProgram
  rw [hfind]
  simp only [hauth, bne, hrc, Bool.not_true, if_false, hacc, if_true]
  rfl

theorem print_not_in_find_out (o : Oracle) (c c1 : Nat) (p : Option String)
    (out1 : Out) (m : String)
    (hfind : find_gh_executable o c = (p, c1, out1)) :
    Event.print m ∉ out1 := by
  intro hm
  have h22 : (find_gh_executable o c).2.2 = out1 := by rw [hfind]
  rw [← h22] at hm
  obtain ⟨q, i, _, heq2⟩ := probeList_events o common_paths c _ hm
  exact Event.noConfusion heq2

/-- C2: when the auth-status subprocess does not exit 0 — non-zero exit
code, timeout, or a raised exception — the process prints an `[ERROR]`
diagnostic and terminates with exit code 1, and the trace contains zero
mutating (label-create or issue-create) subprocess invocations. -/
theorem auth_fail_blocks_creation (o : Oracle) (inp gh : String) (c1 : Nat)
    (out1 : Out)
    (hfind : find_gh_executable o 0 = (some gh, c1, out1))
    (hauth : isSuccess0 (o c1) = false) :
    (mainProgram o inp).exitCode = 1
    ∧ mutatingCalls (mainProgram o inp).events = []
    ∧ ∃ m, Event.print m ∈ (mainProgram o inp).events
        ∧ m.data.take 7 = "[ERROR]".data := by
  have hmut1 := find_out_no_mut o 0 c1 (some gh) out1 hfind
  cases hr : o c1 with
  | completed rc so se =>
    have hrc : (rc == 0) = false := by
      rw [hr] at hauth
      simpa [isSuccess0] using hauth
    rw [mainProgram_authFail o inp gh c1 out1 rc so se hfind hr hrc]
    refine ⟨rfl, ?_, ?_⟩
    · simp only [mutatingCalls_append, headerOut_no_mut, hmut1]
      rfl
    · refine ⟨"[ERROR] GitHub CLI not authenticated. Please run: gh auth login",
        ?_, by decide⟩
      simp [List.mem_append]
  | timedOut =>
    rw [mainProgram_timedOut o inp gh c1 out1 hfind hr]
    refine ⟨rfl, ?_, ?_⟩
    · simp only [mutatingCalls_append, headerOut_no_mut, hmut1]
      rfl
    · refine ⟨"[ERROR] Error checking GitHub CLI auth status: "
          ++ excMsg ExecResult.timedOut, ?_, by decide⟩
      simp [List.mem_append]
  | raised e =>
    rw [mainProgram_raised o inp gh c1 out1 e hfind hr]
    refine ⟨rfl, ?_, ?_⟩
    · simp only [mutatingCalls_append, headerOut_no_mut, hmut1]
      rfl
    · refine ⟨"[ERROR] Error checking GitHub CLI auth status: "
          ++ excMsg (ExecResult.raised e), ?_, ?_⟩
      · simp [List.mem_append]
      · show ("[ERROR] Error checking GitHub CLI auth status: " ++ e).data.take 7
          = "[ERROR]".data
        rw [strDataAppend, take_append_left 7 _ _ (by decide)]
        decide

/-- C2 witness: a concrete run whose auth check exits 1 stops with exit
code 1 and no mutating call. -/
theorem auth_fail_blocks_creation_witness :
    find_gh_executable authFailOracle 0
      = (some "gh", 1, [Event.run ["gh", "--version"] 5 (ExecResult.completed 0 "" "")])
    ∧ isSuccess0 (authFailOracle 1) = false
    ∧ (mainProgram authFailOracle "y").exitCode = 1
    ∧ mutatingCalls (mainProgram authFailOracle "y").events = [] := by
  refine ⟨rfl, rfl, ?_, ?_⟩
  · exact (auth_fail_blocks_creation authFailOracle "y" "gh" 1 _ rfl rfl).1
  · exact (auth_fail_blocks_creation authFailOracle "y" "gh" 1 _ rfl rfl).2.1

/-- C3: the process exit code is 1 exactly when the startup probe finds no
executable or the auth check fails, and 0 otherwise — covering both
graceful completion of issue creation and a user cancellation at the
prompt; and every event before the confirmation-prompt stdin read (all
events, in runs that never reach the prompt) is non-mutating, so the prompt
is always read before any mutating call. -/
theorem process_exit_interface (o : Oracle) (inp : String) :
    (mainProgram o inp).exitCode
      = (if ((find_gh_executable o 0).1).isNone then 1
         else if isSuccess0 (o (find_gh_executable o 0).2.1) then 0 else 1)
    ∧ mutatingCalls (beforeRead (mainProgram o inp).events) = [] := by
  rcases hfind : find_gh_executable o 0 with ⟨ghOpt, c1, out1⟩
  have hmut1 := find_out_no_mut o 0 c1 ghOpt out1 hfind
  cases ghOpt with
  | none =>
    rw [mainProgram_none o inp c1 out1 hfind]
    refine ⟨rfl, ?_⟩
    apply mut_nil_of_subset _ _ (beforeRead_subset _)
    simp only [mutatingCalls_append, headerOut_no_mut, hmut1]
    rfl
  | some gh =>
    cases hr : o c1 with
    | completed rc so se =>
      by_cases hrc : (rc == 0) = true
      · by_cases hacc : (["y", "yes"].contains (pyLower inp)) = true
        · rw [mainProgram_accept o inp gh c1 out1 rc so se hfind hr hrc hacc]
          constructor
          · simp [isSuccess0, hrc]
          · apply mut_nil_of_subset _ _
              (beforeRead_append_read_subset promptText inp _ _)
            simp only [mutatingCalls_append, headerOut_no_mut, hmut1]
            rfl
        · replace hacc : (["y", "yes"].contains (pyLower inp)) = false := by
            cases hv : (["y", "yes"].contains (pyLower inp))
            · rfl
            · exact absurd hv hacc
          rw [mainProgram_decline o inp gh c1 out1 rc so se hfind hr hrc hacc]
          constructor
          · simp [isSuccess0, hrc]
          · apply mut_nil_of_subset _ _
              (beforeRead_append_read_subset promptText inp _ _)
            simp only [mutatingCalls_append, headerOut_no_mut, hmut1]
            rfl
      · replace hrc : (rc == 0) = false := by
          cases hv : (rc == 0)
          · rfl
          · exact absurd hv hrc
        rw [mainProgram_authFail o inp gh c1 out1 rc so se hfind hr hrc]
        constructor
        · simp [isSuccess0, hrc]
        · apply mut_nil_of_subset _ _ (beforeRead_subset _)
          simp only [mutatingCalls_append, headerOut_no_mut, hmut1]
          rfl
    | timedOut =>
      rw [mainProgram_timedOut o inp gh c1 out1 hfind hr]
      constructor
      · simp [isSuccess0]
      · apply mut_nil_of_subset _ _ (beforeRead_subset _)
        simp only [mutatingCalls_append, headerOut_no_mut, hmut1]
        rfl
    | raised e =>
      rw [mainProgram_raised o inp gh c1 out1 e hfind hr]
      constructor
      · simp [isSuccess0]
      · apply mut_nil_of_subset _ _ (beforeRead_subset _)
        simp only [mutatingCalls_append, headerOut_no_mut, hmut1]
        rfl

/-- C1 counterexample: a run in which the tool is found, authentication
succeeds, and the user answers `n` to the prompt completes with exit code 0
printing neither the manual-dump banner nor any manual label line — the
claim's "for every run in which the user declines the prompt, the manual
fallback dump is printed" is false on the code. -/
theorem decline_prints_no_manual_dump :
    (["y", "yes"].contains (pyLower "n")) = false
    ∧ Event.read promptText "n" ∈ (mainProgram allOkOracle "n").events
    ∧ (mainProgram allOkOracle "n").exitCode = 0
    ∧ Event.print "MANUAL ISSUE CREATION" ∉ (mainProgram allOkOracle "n").events
    ∧ Event.print
        (manualLabelLine (LabelRec.mk "backend" "Backend development tasks" "0052cc"))
        ∉ (mainProgram allOkOracle "n").events := by
  decide

/-- C1 (amended): when the executable cannot be located at startup the
program prints the full manual fallback (the whole label list and issue
list) with zero mutating calls; when the user declines the confirmation
prompt the program prints only the cancellation line — not the manual
dump — and likewise makes zero mutating calls. -/
theorem manual_dump_only_when_tool_missing (o : Oracle) (inp : String) :
    ((find_gh_executable o 0).1 = none →
      (∃ pre post, (mainProgram o inp).events = pre ++ print_manual_issues ++ post)
      ∧ mutatingCalls (mainProgram o inp).events = [])
    ∧ (∀ gh c1 out1 rc so se,
        find_gh_executable o 0 = (some gh, c1, out1) →
        o c1 = ExecResult.completed rc so se →
        (rc == 0) = true →
        (["y", "yes"].contains (pyLower inp)) = false →
        Event.print "Cancelled." ∈ (mainProgram o inp).events
        ∧ mutatingCalls (mainProgram o inp).events = []
        ∧ Event.print "MANUAL ISSUE CREATION" ∉ (mainProgram o inp).events) := by
  constructor
  · intro hnone
    rcases hfind : find_gh_executable o 0 with ⟨ghOpt, c1, out1⟩
    rw [hfind] at hnone
    have hgh : ghOpt = none := by simpa using hnone
    subst hgh
    have hmut1 := find_out_no_mut o 0 c1 none out1 hfind
    rw [mainProgram_none o inp c1 out1 hfind]
    constructor
    · refine ⟨headerOut ++ out1
        ++ [Event.print "[ERROR] GitHub CLI not found.",
            Event.print "Install from: https://cli.github.com/",
            Event.print "Or create issues manually using the output below."], [], ?_⟩
      simp
    · simp only [mutatingCalls_append, headerOut_no_mut, hmut1]
      rfl
  · intro gh c1 out1 rc so se hfind hr hrc hacc
    have hmut1 := find_out_no_mut o 0 c1 (some gh) out1 hfind
    rw [mainProgram_decline o inp gh c1 out1 rc so se hfind hr hrc hacc]
    refine ⟨by simp [List.mem_append], ?_, ?_⟩
    · simp only [mutatingCalls_append, headerOut_no_mut, hmut1]
      rfl
    · intro hm
      rcases List.mem_append.mp hm with hm | hm
      · rcases List.mem_append.mp hm with hm | hm
        · rcases List.mem_append.mp hm with hm | hm
          · rcases List.mem_append.mp hm with hm | hm
            · revert hm; decide
            · exact print_not_in_find_out o 0 c1 (some gh) out1 _ hfind hm
          · exact Event.noConfusion (List.mem_singleton.mp hm)
        · exact absurd (Event.print.inj (List.mem_singleton.mp hm)) (by decide)
      · rcases List.mem_cons.mp hm with h | h
        · exact Event.noConfusion h
        · rcases List.mem_cons.mp h with h2 | h2
          · exact absurd (Event.print.inj h2) (by decide)
          · exact absurd h2 (List.not_mem_nil _)

/-- C1 amended witness: the two scenarios at concrete inputs — all probes
time out (manual dump printed, no mutation), and a declined prompt (no
mutation, cancellation printed, no manual banner). -/
theorem manual_dump_only_when_tool_missing_witness :
    ((find_gh_executable allTimeoutOracle 0).1 = none
      ∧ (∃ pre post, (mainProgram allTimeoutOracle "y").events
          = pre ++ print_manual_issues ++ post)
      ∧ mutatingCalls (mainProgram allTimeoutOracle "y").events = [])
    ∧ (find_gh_executable allOkOracle 0
        = (some "gh", 1, [Event.run ["gh", "--version"] 5 (ExecResult.completed 0 "" "")])
      ∧ Event.print "Cancelled." ∈ (mainProgram allOkOracle "n").events
      ∧ mutatingCalls (mainProgram allOkOracle "n").events = []
      ∧ Event.print "MANUAL ISSUE CREATION" ∉ (mainProgram allOkOracle "n").events) := by
  constructor
  · refine ⟨rfl, ?_⟩
    exact (manual_dump_only_when_tool_missing allTimeoutOracle "y").1 rfl
  · refine ⟨rfl, ?_⟩
    have h := (manual_dump_only_when_tool_missing allOkOracle "n").2
      "gh" 1 _ 0 "" "" rfl rfl rfl (by decide)
    exact ⟨h.1, h.2.1, h.2.2⟩

/-- C10: when the re-probe inside the issue-creation routine — after a
successful auth check and an accepted prompt — finds no executable, the
program prints the manual fallback and the completion message and
terminates with exit code 0, unlike the startup not-found path's exit
code 1. -/
theorem second_probe_failure_graceful (o : Oracle) (inp gh : String) (c1 : Nat)
    (out1 : Out) (rc : Int) (so se : String)
    (hfind : find_gh_executable o 0 = (some gh, c1, out1))
    (hauth : o c1 = ExecResult.completed rc so se)
    (hrc : (rc == 0) = true)
    (hacc : (["y", "yes"].contains (pyLower inp)) = true)
    (hfind2 : (find_gh_executable o (c1 + 1)).1 = none) :
    (mainProgram o inp).exitCode = 0
    ∧ (∃ pre post, (mainProgram o inp).events = pre ++ print_manual_issues ++ post)
    ∧ Event.print "\nDone! Check your repository for the created issues."
        ∈ (mainProgram o inp).events := by
  rcases hf2 : find_gh_executable o (c1 + 1) with ⟨g2, c2, out2⟩
  rw [hf2] at hfind2
  have hg2 : g2 = none := by simpa using hfind2
  subst hg2
  rw [mainProgram_accept o inp gh c1 out1 rc so se hfind hauth hrc hacc,
      create_github_issues_none o (c1 + 1) c2 out2 hf2]
  refine ⟨rfl, ?_, ?_⟩
  · refine ⟨((headerOut ++ out1
        ++ [Event.run [gh, "auth", "status"] 10 (ExecResult.completed rc so se)])
        ++ [Event.print "[SUCCESS] GitHub CLI authenticated"])
        ++ Event.read promptText inp :: out2
        ++ [Event.print "[ERROR] GitHub CLI not found. Please install it from: https://cli.github.com/",
            Event.print "Or manually create issues using the task groups below:"],
      [Event.print "\nDone! Check your repository for the created issues."], ?_⟩
    simp
  · simp [List.mem_append]

/-- C10 witness: startup probe and auth succeed, the user accepts, the
re-probe fails on all five candidates; the run still exits 0, dumps the
manual fallback and prints the completion message. -/
theorem second_probe_failure_graceful_witness :
    find_gh_executable secondProbeFailOracle 0
      = (some "gh", 1, [Event.run ["gh", "--version"] 5 (ExecResult.completed 0 "" "")])
    ∧ secondProbeFailOracle 1 = ExecResult.completed 0 "" ""
    ∧ (["y", "yes"].contains (pyLower "y")) = true
    ∧ (find_gh_executable secondProbeFailOracle 2).1 = none
    ∧ (mainProgram secondProbeFailOracle "y").exitCode = 0
    ∧ Event.print "\nDone! Check your repository for the created issues."
        ∈ (mainProgram secondProbeFailOracle "y").events := by
  refine ⟨rfl, rfl, by decide, by decide, ?_, ?_⟩
  · exact (second_probe_failure_graceful secondProbeFailOracle "y" "gh" 1 _ 0 "" ""
      rfl rfl rfl (by decide) (by decide)).1
  · exact (second_probe_failure_graceful secondProbeFailOracle "y" "gh" 1 _ 0 "" ""
      rfl rfl rfl (by decide) (by decide)).2.2

/-- C7: label names in the static table are unique; the table is a
process-wide constant (it is a closed `def`, never rebound). -/
theorem label_names_unique :
    (REQUIRED_LABELS.map (fun l => l.name)).Nodup := by decide

/-- C6: every label name referenced by an issue record of `TASK_GROUPS` is
the name of some record of `REQUIRED_LABELS`. -/
theorem issue_labels_exist :
    (TASK_GROUPS.all fun t =>
      t.labels.all fun n =>
        REQUIRED_LABELS.any fun l => l.name == n) = true := by decide

end CreateIssues
